import Mathlib

/-!
# systemd-cloud-watch: the CloudWatch journal repeater

A shallow embedding of `cloud-watch/cloudwatch_journal_repeater.go`.

* Go `error` values are `Option GoError` (`none` is `nil`).
* The AWS client `repeater.conn` is a record of four state-passing functions over an
  arbitrary sink state `σ`, so every theorem quantified over `conn` and `σ` holds for
  every behaviour of the remote service.
* Every remote call is appended to a chronological log (`St.calls`) together with the
  request that was sent and the answer that came back.
* A nil dereference is the outcome `panicked`.
* Debug and error logging have no effect on any modelled state and are left out.
-/

namespace CloudWatch

/-! ## Go values -/

deriving instance DecidableEq for Except

/-- Go error values. `awserr` is a value implementing `awserr.Error` (the type assertion
`err.(awserr.Error)` succeeds on it), with the result of `Code()` and of `Error()`;
`errorString` is any other error value (`errors.New`, `fmt.Errorf`, a network error, ...)
with the result of `Error()`. -/
inductive GoError where
  | awserr (code : String) (text : String)
  | errorString (text : String)
  deriving DecidableEq, Repr

/-- Go `err.Error()`. -/
def GoError.Error : GoError → String
  | .awserr _ text => text
  | .errorString text => text

/-- Go `fmt.Errorf(ctx + "%s %v", err.Error(), err)`: a fresh non-AWS error whose text is the
context followed by the text of `err` twice (`%v` of an error prints `err.Error()`). -/
def Errorf (ctx : String) (err : GoError) : GoError :=
  .errorString (ctx ++ err.Error ++ " " ++ err.Error)

/-- Go conversion `int64(x)`: two's complement wrap-around to 64 bits. -/
def int64 (x : Int) : Int := (x + 2 ^ 63) % 2 ^ 64 - 2 ^ 63

/-- Modelled from the spec: the `Record` type is declared outside the source file. Only the
two fields `WriteBatch` touches are named; `payload` stands for all remaining fields. -/
structure Record where
  SeqId : Int
  TimeUsec : Int
  payload : String
  deriving DecidableEq, Repr

/-! ## AWS SDK request and response shapes (the fields the repeater uses) -/

structure InputLogEvent where
  Message : String
  Timestamp : Int
  deriving DecidableEq, Repr

structure PutLogEventsInput where
  LogEvents : List InputLogEvent
  LogGroupName : String
  LogStreamName : String
  SequenceToken : Option String
  deriving DecidableEq, Repr

/-- The field `NextSequenceToken` is a `*string` and may be nil. -/
structure PutLogEventsOutput where
  NextSequenceToken : Option String
  deriving DecidableEq, Repr

structure DescribeLogStreamsInput where
  LogGroupName : String
  LogStreamNamePrefix : String
  Limit : Int
  deriving DecidableEq, Repr

/-- The field `UploadSequenceToken` is a `*string` and may be nil. -/
structure LogStream where
  LogStreamName : String
  UploadSequenceToken : Option String
  deriving DecidableEq, Repr

structure DescribeLogStreamsOutput where
  LogStreams : List LogStream
  deriving DecidableEq, Repr

structure CreateLogStreamInput where
  LogGroupName : String
  LogStreamName : String
  deriving DecidableEq, Repr

structure CreateLogGroupInput where
  LogGroupName : String
  deriving DecidableEq, Repr

/-- The client `*cloudwatchlogs.CloudWatchLogs`: four remote operations, each mapping a
request and the sink state to an answer and the next sink state. -/
structure CloudWatchLogs (σ : Type) where
  PutLogEvents : PutLogEventsInput → σ → Except GoError PutLogEventsOutput × σ
  DescribeLogStreams : DescribeLogStreamsInput → σ → Except GoError DescribeLogStreamsOutput × σ
  CreateLogStream : CreateLogStreamInput → σ → Option GoError × σ
  CreateLogGroup : CreateLogGroupInput → σ → Option GoError × σ

/-- One remote call as it happened: the request sent and the answer received. -/
inductive SinkCall where
  | PutLogEvents (request : PutLogEventsInput) (result : Except GoError PutLogEventsOutput)
  | DescribeLogStreams (request : DescribeLogStreamsInput)
      (result : Except GoError DescribeLogStreamsOutput)
  | CreateLogStream (request : CreateLogStreamInput) (err : Option GoError)
  | CreateLogGroup (request : CreateLogGroupInput) (err : Option GoError)
  deriving DecidableEq

/-- Number of `PutLogEvents` calls in a log. -/
def putCalls (calls : List SinkCall) : Nat :=
  calls.countP fun c => match c with
    | .PutLogEvents _ _ => true
    | _ => false

/-- Number of `PutLogEvents` calls in a log that the sink accepted (answered without error). -/
def acceptedPuts (calls : List SinkCall) : Nat :=
  calls.countP fun c => match c with
    | .PutLogEvents _ (.ok _) => true
    | _ => false

/-- Number of `DescribeLogStreams` calls in a log. -/
def describeCalls (calls : List SinkCall) : Nat :=
  calls.countP fun c => match c with
    | .DescribeLogStreams _ _ => true
    | _ => false

/-- Number of `CreateLogStream` calls in a log. -/
def createStreamCalls (calls : List SinkCall) : Nat :=
  calls.countP fun c => match c with
    | .CreateLogStream _ _ => true
    | _ => false

/-- Number of `CreateLogGroup` calls in a log. -/
def createGroupCalls (calls : List SinkCall) : Nat :=
  calls.countP fun c => match c with
    | .CreateLogGroup _ _ => true
    | _ => false

/-! ## The repeater -/

/-- The struct `CloudWatchJournalRepeater` (the fields that carry state). -/
structure CloudWatchJournalRepeater where
  logGroupName : String
  logStreamName : String
  nextSequenceToken : String
  deriving DecidableEq, Repr

/-- State threaded through the closures of `WriteBatch`: the repeater they capture, the
sink behind `repeater.conn`, and the log of remote calls issued so far. -/
structure St (σ : Type) where
  repeater : CloudWatchJournalRepeater
  sink : σ
  calls : List SinkCall

/-- How a Go function ends: it returns an `error` (possibly nil), or it panics. -/
inductive Outcome where
  | returned (err : Option GoError)
  | panicked
  deriving DecidableEq, Repr

/-- Result of the record loop of `WriteBatch` (lines 49-65). -/
structure LoopResult where
  messageId : Int
  records : List Record
  seqIds : List Int
  events : Except GoError (List InputLogEvent)

/-- Lines 49-65: for every record in order, `messageId++`, `record.SeqId = messageId`,
serialize the record, and append the event; a serialization failure returns at once.
`seqIds` logs the values assigned to `record.SeqId`, in order of assignment. The pointers of
a batch are taken to be non-nil and pairwise distinct, so the records are a list of values. -/
def annotate (marshal : Record → Except GoError String) : Int → List Record → LoopResult
  | messageId, [] => ⟨messageId, [], [], .ok []⟩
  | messageId, record :: rest =>
    let messageId1 := int64 (messageId + 1)
    let record1 : Record := { record with SeqId := messageId1 }
    match marshal record1 with
    | .error err => ⟨messageId1, record1 :: rest, [messageId1], .error err⟩
    | .ok jsonData =>
      let r := annotate marshal messageId1 rest
      ⟨r.messageId, record1 :: r.records, messageId1 :: r.seqIds,
        match r.events with
        | .error err => .error err
        | .ok events => .ok (⟨jsonData, int64 record1.TimeUsec⟩ :: events)⟩

/-- The request built by `putEvents` (lines 68-75). -/
def putRequest (repeater : CloudWatchJournalRepeater) (events : List InputLogEvent) :
    PutLogEventsInput :=
  { LogEvents := events
    LogGroupName := repeater.logGroupName
    LogStreamName := repeater.logStreamName
    SequenceToken :=
      if repeater.nextSequenceToken ≠ "" then some repeater.nextSequenceToken else none }

/-- Closure `putEvents` (lines 67-83). -/
def putEvents {σ : Type} (conn : CloudWatchLogs σ) (events : List InputLogEvent) (st : St σ) :
    Outcome × St σ :=
  let request := putRequest st.repeater events
  match conn.PutLogEvents request st.sink with
  | (.error err, sink) =>
    (.returned (some err),
      { st with sink := sink, calls := st.calls ++ [.PutLogEvents request (.error err)] })
  | (.ok result, sink) =>
    let st1 : St σ :=
      { st with sink := sink, calls := st.calls ++ [.PutLogEvents request (.ok result)] }
    match result.NextSequenceToken with
    | none => (.panicked, st1)
    | some token =>
      (.returned none, { st1 with repeater := { st1.repeater with nextSequenceToken := token } })

/-- The request built by `getNextToken` (lines 86-91). -/
def describeRequest (repeater : CloudWatchJournalRepeater) : DescribeLogStreamsInput :=
  { LogGroupName := repeater.logGroupName
    LogStreamNamePrefix := repeater.logStreamName
    Limit := 1 }

/-- Closure `getNextToken` (lines 85-114). -/
def getNextToken {σ : Type} (conn : CloudWatchLogs σ) (events : List InputLogEvent) (st : St σ) :
    Outcome × St σ :=
  let request := describeRequest st.repeater
  match conn.DescribeLogStreams request st.sink with
  | (.error err, sink) =>
    (.returned (some err),
      { st with sink := sink, calls := st.calls ++ [.DescribeLogStreams request (.error err)] })
  | (.ok describeOutput, sink) =>
    let st1 : St σ :=
      { st with
        sink := sink, calls := st.calls ++ [.DescribeLogStreams request (.ok describeOutput)] }
    match describeOutput.LogStreams with
    | stream :: _ =>
      match stream.UploadSequenceToken with
      | none => (.panicked, st1)
      | some token =>
        match putEvents conn events
            { st1 with repeater := { st1.repeater with nextSequenceToken := token } } with
        | (.returned (some err), st2) =>
          (.returned (some (Errorf "failed to put events after sequence lookup: : " err)), st2)
        | (.returned none, st2) => (.returned none, st2)
        | (.panicked, st2) => (.panicked, st2)
    | [] =>
      (.returned (some (.errorString "failed to put events after looking for next sequence")),
        st1)

/-- Closure `createStream` (lines 116-128). -/
def createStream {σ : Type} (conn : CloudWatchLogs σ) (st : St σ) : Option GoError × St σ :=
  let request : CreateLogStreamInput :=
    { LogGroupName := st.repeater.logGroupName, LogStreamName := st.repeater.logStreamName }
  match conn.CreateLogStream request st.sink with
  | (err, sink) => (err, { st with sink := sink, calls := st.calls ++ [.CreateLogStream request err] })

/-- Closure `createLogGroup` (lines 130-141). -/
def createLogGroup {σ : Type} (conn : CloudWatchLogs σ) (st : St σ) : Option GoError × St σ :=
  let request : CreateLogGroupInput := { LogGroupName := st.repeater.logGroupName }
  match conn.CreateLogGroup request st.sink with
  | (err, sink) => (err, { st with sink := sink, calls := st.calls ++ [.CreateLogGroup request err] })

/-- Closure `recoverResourceNotFound` (lines 143-172). When `createStream` fails with an
error that is not an `awserr.Error`, the unchecked type assertion of line 149 leaves `awsErr`
nil and `awsErr.Code()` on line 151 panics. -/
def recoverResourceNotFound {σ : Type} (conn : CloudWatchLogs σ) (events : List InputLogEvent)
    (st : St σ) : Outcome × St σ :=
  let wrapPut (r : Outcome × St σ) : Outcome × St σ :=
    match r with
    | (.returned (some err), st2) => (.returned (some (Errorf "failed to put events: " err)), st2)
    | (.returned none, st2) => (.returned none, st2)
    | (.panicked, st2) => (.panicked, st2)
  match createStream conn st with
  | (some err, st1) =>
    match err with
    | .errorString _ => (.panicked, st1)
    | .awserr code _ =>
      if code = "ResourceNotFoundException" then
        match createLogGroup conn st1 with
        | (some err, st2) => (.returned (some (Errorf "failed to create log group: " err)), st2)
        | (none, st2) =>
          match createStream conn st2 with
          | (some err, st3) =>
            (.returned (some (Errorf "failed to create stream after log group: " err)), st3)
          | (none, st3) => wrapPut (putEvents conn events st3)
      else
        (.returned (some (Errorf "failed to create stream: " err)), st1)
  | (none, st1) => wrapPut (putEvents conn events st1)

/-- Lines 174-176: `if repeater.nextSequenceToken == "" { getNextToken() }`. The error
returned by `getNextToken` is discarded; only a panic ends the call. -/
def prime {σ : Type} (conn : CloudWatchLogs σ) (events : List InputLogEvent) (st : St σ) :
    Outcome × St σ :=
  if st.repeater.nextSequenceToken = "" then
    match getNextToken conn events st with
    | (.returned _, st1) => (.returned none, st1)
    | (.panicked, st1) => (.panicked, st1)
  else (.returned none, st)

/-- Lines 178-213: the append attempt and the dispatch on the error it reports. -/
def attempt {σ : Type} (conn : CloudWatchLogs σ) (events : List InputLogEvent) (st : St σ) :
    Outcome × St σ :=
  match putEvents conn events st with
  | (.panicked, st1) => (.panicked, st1)
  | (.returned none, st1) => (.returned none, st1)
  | (.returned (some originalErr), st1) =>
    match originalErr with
    | .awserr code _ =>
      if code = "ResourceNotFoundException" then
        match recoverResourceNotFound conn events st1 with
        | (.returned (some err), st2) => (.returned (some err), st2)
        | (.returned none, st2) => (.returned none, st2)
        | (.panicked, st2) => (.panicked, st2)
      else if code = "DataAlreadyAcceptedException" then
        match getNextToken conn events st1 with
        | (.returned (some err), st2) =>
          (.returned
            (some (Errorf "Next token failed after DataAlreadyAcceptedException :  " err)), st2)
        | (.returned none, st2) => (.returned none, st2)
        | (.panicked, st2) => (.panicked, st2)
      else if code = "InvalidSequenceTokenException" then
        match getNextToken conn events st1 with
        | (.returned (some err), st2) =>
          (.returned
            (some (Errorf "Next token failed after InvalidSequenceTokenException : " err)), st2)
        | (.returned none, st2) => (.returned none, st2)
        | (.panicked, st2) => (.panicked, st2)
      else
        (.returned (some (Errorf "failed to put events: : " originalErr)), st1)
    | .errorString _ => (.returned none, st1)

/-- What a call of `WriteBatch` leaves behind: how it ended, the process-wide counter, the
records (mutated in place through their pointers), the values assigned to `SeqId`, the
repeater, the sink, and the remote calls it issued in order. -/
structure WriteBatchResult (σ : Type) where
  outcome : Outcome
  messageId : Int
  records : List Record
  seqIds : List Int
  repeater : CloudWatchJournalRepeater
  sink : σ
  calls : List SinkCall

/-- Method `WriteBatch` (lines 44-214). `messageId` is the package variable of line 13. -/
def WriteBatch {σ : Type} (conn : CloudWatchLogs σ) (marshal : Record → Except GoError String)
    (messageId : Int) (repeater : CloudWatchJournalRepeater) (records : List Record)
    (sink : σ) : WriteBatchResult σ :=
  let loop := annotate marshal messageId records
  match loop.events with
  | .error err =>
    ⟨.returned (some err), loop.messageId, loop.records, loop.seqIds, repeater, sink, []⟩
  | .ok events =>
    match prime conn events ⟨repeater, sink, []⟩ with
    | (.panicked, st1) =>
      ⟨.panicked, loop.messageId, loop.records, loop.seqIds, st1.repeater, st1.sink, st1.calls⟩
    | (.returned _, st1) =>
      match attempt conn events st1 with
      | (outcome, st2) =>
        ⟨outcome, loop.messageId, loop.records, loop.seqIds, st2.repeater, st2.sink, st2.calls⟩

/-! ## A scripted sink, for concrete runs -/

/-- One scripted answer of the sink. -/
inductive Reply where
  | put (result : Except GoError PutLogEventsOutput)
  | describe (result : Except GoError DescribeLogStreamsOutput)
  | createStream (err : Option GoError)
  | createGroup (err : Option GoError)

/-- The error a scripted sink answers when the script has no answer for the call. -/
def unscripted : GoError := .errorString "unscripted call"

/-- A sink that answers from a script: each call consumes the next scripted answer when it
is an answer to that operation. -/
def scripted : CloudWatchLogs (List Reply) where
  PutLogEvents := fun _ s =>
    match s with
    | .put r :: rest => (r, rest)
    | _ => (.error unscripted, s)
  DescribeLogStreams := fun _ s =>
    match s with
    | .describe r :: rest => (r, rest)
    | _ => (.error unscripted, s)
  CreateLogStream := fun _ s =>
    match s with
    | .createStream r :: rest => (r, rest)
    | _ => (some unscripted, s)
  CreateLogGroup := fun _ s =>
    match s with
    | .createGroup r :: rest => (r, rest)
    | _ => (some unscripted, s)

/-- A serializer that never fails: it yields the payload. -/
def marshalOk (r : Record) : Except GoError String := .ok r.payload

/-! ## The process: one counter, several repeaters, one sink -/

/-- A freshly constructed repeater: the token is empty. -/
def fresh : CloudWatchJournalRepeater := ⟨"group", "stream", ""⟩

/-- A repeater that already holds the token `T1`. -/
def holdingT1 : CloudWatchJournalRepeater := ⟨"group", "stream", "T1"⟩

/-- A batch of two records. -/
def batch : List Record := [⟨0, 1000, "e1"⟩, ⟨0, 2000, "e2"⟩]

/-- The events `WriteBatch` builds from `batch` with the serializer `marshalOk`. -/
def batchEvents : List InputLogEvent := [⟨"e1", 1000⟩, ⟨"e2", 2000⟩]

/-- An AWS error with the given code. -/
def awsError (code : String) : GoError := .awserr code (code ++ ": rejected")

/-- An error that is not an `awserr.Error`. -/
def timeout : GoError := .errorString "dial tcp: i/o timeout"

/-- The answer of `DescribeLogStreams` that lists the bound stream with the given token. -/
def found (token : String) : Reply := .describe (.ok ⟨[⟨"stream", some token⟩]⟩)

/-- Empty token; the lookup finds the stream with token `T`; every append is accepted. -/
def primingRun : WriteBatchResult (List Reply) :=
  WriteBatch scripted marshalOk 0 fresh batch
    [found "T", .put (.ok ⟨some "T1"⟩), .put (.ok ⟨some "T2"⟩)]

/-- Token `T1`; the append reports `DataAlreadyAcceptedException`; the lookup finds the
stream with token `T5`; the next append is accepted with next-token `T6`. -/
def alreadyAcceptedRun : WriteBatchResult (List Reply) :=
  WriteBatch scripted marshalOk 0 holdingT1 batch
    [.put (.error (awsError "DataAlreadyAcceptedException")), found "T5",
      .put (.ok ⟨some "T6"⟩)]

/-- Token `T1`; the append reports `InvalidSequenceTokenException`; the lookup finds no
stream. -/
def mismatchNoStreamRun : WriteBatchResult (List Reply) :=
  WriteBatch scripted marshalOk 0 holdingT1 batch
    [.put (.error (awsError "InvalidSequenceTokenException")), .describe (.ok ⟨[]⟩)]

/-- The script of a sink whose stream has moved on to token `T2`. -/
def staleToken : List Reply :=
  [.put (.error (awsError "InvalidSequenceTokenException")), found "T2",
    .put (.ok ⟨some "T3"⟩)]

/-- Token `T1`; the append reports `InvalidSequenceTokenException`; the lookup finds token
`T2`; the retried append is accepted with next-token `T3`. -/
def mismatchRun : WriteBatchResult (List Reply) :=
  WriteBatch scripted marshalOk 0 holdingT1 batch staleToken

/-- Token `T1`; the append fails with an error that is not an `awserr.Error`. -/
def timeoutRun : WriteBatchResult (List Reply) :=
  WriteBatch scripted marshalOk 0 holdingT1 batch [.put (.error timeout)]

/-- Token `T1`; the append fails with the AWS error `ThrottlingException`. -/
def throttledRun : WriteBatchResult (List Reply) :=
  WriteBatch scripted marshalOk 0 holdingT1 batch
    [.put (.error (awsError "ThrottlingException"))]

/-- Empty token; the priming lookup finds token `T0` and its append is throttled; the append
of line 179 reports `InvalidSequenceTokenException`; the second lookup finds token `T2` and
the append that follows is accepted. -/
def threeAppendsRun : WriteBatchResult (List Reply) :=
  WriteBatch scripted marshalOk 0 fresh batch
    [found "T0", .put (.error (awsError "ThrottlingException")),
      .put (.error (awsError "InvalidSequenceTokenException")), found "T2",
      .put (.ok ⟨some "T3"⟩)]

/-- The script of a sink on which neither the group nor the stream exists yet. -/
def nothingExists : List Reply :=
  [.describe (.error (awsError "ResourceNotFoundException")),
    .put (.error (awsError "ResourceNotFoundException")),
    .createStream (some (awsError "ResourceNotFoundException")),
    .createGroup none, .createStream none, .put (.ok ⟨some "T1"⟩)]

/-- Empty token on a sink where neither the group nor the stream exists yet. -/
def provisionRun : WriteBatchResult (List Reply) :=
  WriteBatch scripted marshalOk 0 fresh batch nothingExists

/-- The script of a sink on which the stream is missing and can be created. -/
def streamMissing : List Reply :=
  [.describe (.ok ⟨[]⟩), .put (.error (awsError "ResourceNotFoundException")),
    .createStream none, .put (.ok ⟨some "T1"⟩)]

/-- Empty token; the stream is missing; `CreateLogStream` fails with an error that is not
an `awserr.Error`. -/
def createTimeoutRun : WriteBatchResult (List Reply) :=
  WriteBatch scripted marshalOk 0 fresh batch
    [.describe (.ok ⟨[]⟩), .put (.error (awsError "ResourceNotFoundException")),
      .createStream (some timeout)]

/-- Number of `DescribeLogStreams` calls in a log that listed at least one stream. -/
def lookupsFound (calls : List SinkCall) : Nat :=
  calls.countP fun c => match c with
    | .DescribeLogStreams _ (.ok ⟨_ :: _⟩) => true
    | _ => false

/-- Every `PutLogEvents` call of the log carries the given events. -/
def PutsCarry (events : List InputLogEvent) (calls : List SinkCall) : Prop :=
  ∀ request result, SinkCall.PutLogEvents request result ∈ calls → request.LogEvents = events

/-- The request of the first `PutLogEvents` call of a log, if there is one. -/
def firstPut : List SinkCall → Option PutLogEventsInput
  | [] => none
  | .PutLogEvents request _ :: _ => some request
  | _ :: rest => firstPut rest

/-- The state `st1` is reached from `st` by further remote calls that leave the names of the
repeater alone, change its token only when an append is accepted or a lookup lists a stream,
and append only the given events. -/
def Follows {σ : Type} (events : List InputLogEvent) (st st1 : St σ) : Prop :=
  st.calls <+: st1.calls ∧
    st1.repeater.logGroupName = st.repeater.logGroupName ∧
    st1.repeater.logStreamName = st.repeater.logStreamName ∧
    acceptedPuts st.calls ≤ acceptedPuts st1.calls ∧
    lookupsFound st.calls ≤ lookupsFound st1.calls ∧
    (acceptedPuts st1.calls = acceptedPuts st.calls →
      lookupsFound st1.calls = lookupsFound st.calls →
      st1.repeater.nextSequenceToken = st.repeater.nextSequenceToken) ∧
    (PutsCarry events st.calls → PutsCarry events st1.calls)

/-! ## Further concrete inputs -/

/-- Empty token; the priming lookup finds token `T0` and the append made with it is
throttled; the append of line 179 is accepted. -/
def primingFailureRun : WriteBatchResult (List Reply) :=
  WriteBatch scripted marshalOk 0 fresh batch
    [found "T0", .put (.error (awsError "ThrottlingException")), .put (.ok ⟨some "T1"⟩)]

/-- Empty token; the priming lookup finds token `T` and the append made with it is accepted;
the append of line 179 is throttled. -/
def deliveredThenThrottledRun : WriteBatchResult (List Reply) :=
  WriteBatch scripted marshalOk 0 fresh batch
    [found "T", .put (.ok ⟨some "T1"⟩), .put (.error (awsError "ThrottlingException"))]

/-- Token `T1`; the append is accepted with next-token `T2`. -/
def acceptedRun : WriteBatchResult (List Reply) :=
  WriteBatch scripted marshalOk 0 holdingT1 batch [.put (.ok ⟨some "T2"⟩)]

/-- The script of a sink that cannot be reached during a first call and, during the next
call, lists the stream with token `T` and accepts every append. -/
def outageThenUp : List Reply :=
  [.describe (.error timeout), .put (.error timeout),
    found "T", .put (.ok ⟨some "T1"⟩), .put (.ok ⟨some "T2"⟩)]

/-- Empty token; neither the lookup nor the append reaches the sink. -/
def outageCall : WriteBatchResult (List Reply) :=
  WriteBatch scripted marshalOk 0 fresh batch outageThenUp

/-- The call that follows `outageCall` on the same repeater. -/
def afterOutageCall : WriteBatchResult (List Reply) :=
  WriteBatch scripted marshalOk outageCall.messageId outageCall.repeater batch outageCall.sink

/-- Token `T1`; the sink accepts the append and answers with an empty next-token. -/
def emptyNextTokenCall : WriteBatchResult (List Reply) :=
  WriteBatch scripted marshalOk 0 holdingT1 batch [.put (.ok ⟨some ""⟩)]

/-- The call that follows `emptyNextTokenCall` on the same repeater; the lookup lists the
stream with token `T` and every append is accepted. -/
def afterEmptyNextTokenCall : WriteBatchResult (List Reply) :=
  WriteBatch scripted marshalOk emptyNextTokenCall.messageId emptyNextTokenCall.repeater batch
    [found "T", .put (.ok ⟨some "T1"⟩), .put (.ok ⟨some "T2"⟩)]

/-- The call that follows `acceptedRun` on the same repeater; the append is accepted. -/
def afterAcceptedRun : WriteBatchResult (List Reply) :=
  WriteBatch scripted marshalOk acceptedRun.messageId acceptedRun.repeater batch
    [.put (.ok ⟨some "T3"⟩)]

/-- Empty token; the priming lookup lists no stream; the append reports
`InvalidSequenceTokenException`; the lookup of the recovery lists no stream either. -/
def noStreamTwiceRun : WriteBatchResult (List Reply) :=
  WriteBatch scripted marshalOk 0 fresh batch
    [.describe (.ok ⟨[]⟩), .put (.error (awsError "InvalidSequenceTokenException")),
      .describe (.ok ⟨[]⟩)]

/-- The script of a sink on which no stream is listed and the append is accepted. -/
def newStream : List Reply := [.describe (.ok ⟨[]⟩), .put (.ok ⟨some "T1"⟩)]

/-- The script of a sink whose lookup by the prefix `stream` lists only the stream
`stream-2`, with token `X`; both appends are rejected. -/
def otherStreamListed : List Reply :=
  [.describe (.ok ⟨[⟨"stream-2", some "X"⟩]⟩),
    .put (.error (awsError "InvalidSequenceTokenException")),
    .put (.error (awsError "ThrottlingException"))]

/-- Empty token; bound to `stream`; the lookup lists only `stream-2`. -/
def otherStreamRun : WriteBatchResult (List Reply) :=
  WriteBatch scripted marshalOk 0 fresh batch otherStreamListed

set_option maxRecDepth 10000

/-! ## Lemmas on the closures -/

theorem putEvents_calls {σ : Type} (conn : CloudWatchLogs σ) (events : List InputLogEvent)
    (st : St σ) :
    (putEvents conn events st).2.calls =
      st.calls ++ [.PutLogEvents (putRequest st.repeater events)
        (conn.PutLogEvents (putRequest st.repeater events) st.sink).1] := by
  rcases h : conn.PutLogEvents (putRequest st.repeater events) st.sink with ⟨e | ⟨_ | t⟩, s⟩ <;>
    simp [putEvents, h]

theorem getNextToken_createGroupCalls {σ : Type} (conn : CloudWatchLogs σ)
    (events : List InputLogEvent) (st : St σ) :
    createGroupCalls (getNextToken conn events st).2.calls = createGroupCalls st.calls := by
  rcases h : conn.DescribeLogStreams (describeRequest st.repeater) st.sink with
    ⟨e | ⟨_ | ⟨⟨n, _ | t⟩, rest⟩⟩, s⟩
  · simp [getNextToken, h, createGroupCalls]
  · simp [getNextToken, h, createGroupCalls]
  · simp [getNextToken, h, createGroupCalls]
  · simp only [getNextToken, h]
    split <;> next hp =>
      have hc := congrArg (fun r => r.2.calls) hp
      simp only [putEvents_calls] at hc
      simp [← hc, createGroupCalls]

theorem prime_createGroupCalls {σ : Type} (conn : CloudWatchLogs σ) (events : List InputLogEvent)
    (st : St σ) :
    createGroupCalls (prime conn events st).2.calls = createGroupCalls st.calls := by
  have h := getNextToken_createGroupCalls conn events st
  unfold prime
  split
  · split <;> next hp => rw [hp] at h; exact h
  · rfl

theorem putEvents_putCalls {σ : Type} (conn : CloudWatchLogs σ) (events : List InputLogEvent)
    (st : St σ) : putCalls (putEvents conn events st).2.calls = putCalls st.calls + 1 := by
  simp [putEvents_calls, putCalls]

theorem getNextToken_putCalls {σ : Type} (conn : CloudWatchLogs σ)
    (events : List InputLogEvent) (st : St σ) :
    putCalls (getNextToken conn events st).2.calls ≤ putCalls st.calls + 1 := by
  rcases h : conn.DescribeLogStreams (describeRequest st.repeater) st.sink with
    ⟨e | ⟨_ | ⟨⟨n, _ | t⟩, rest⟩⟩, s⟩
  · simp [getNextToken, h, putCalls]
  · simp [getNextToken, h, putCalls]
  · simp [getNextToken, h, putCalls]
  · simp only [getNextToken, h]
    split <;> next hp =>
      have hc := congrArg (fun r => putCalls r.2.calls) hp
      simp only [putEvents_putCalls] at hc
      simp only [putCalls, List.countP_append, List.countP_cons, List.countP_nil] at hc ⊢
      simp only [← hc]
      simp

theorem recoverResourceNotFound_putCalls {σ : Type} (conn : CloudWatchLogs σ)
    (events : List InputLogEvent) (st : St σ) :
    putCalls (recoverResourceNotFound conn events st).2.calls ≤ putCalls st.calls + 1 := by
  have key : ∀ st1 : St σ, putCalls st1.calls = putCalls st.calls →
      putCalls (match putEvents conn events st1 with
        | (.returned (some err), st2) =>
          ((.returned (some (Errorf "failed to put events: " err)), st2) : Outcome × St σ)
        | (.returned none, st2) => (.returned none, st2)
        | (.panicked, st2) => (.panicked, st2)).2.calls ≤ putCalls st.calls + 1 := by
    intro st1 h1
    have hc := putEvents_putCalls conn events st1
    split <;> next hp => rw [hp] at hc; simp only at hc ⊢; omega
  rcases h1 : conn.CreateLogStream ⟨st.repeater.logGroupName, st.repeater.logStreamName⟩ st.sink
    with ⟨_ | ⟨code, text⟩ | text, s1⟩
  · simp only [recoverResourceNotFound, createStream, h1]
    exact key _ (by simp [putCalls])
  · by_cases hcode : code = "ResourceNotFoundException"
    · rcases h2 : conn.CreateLogGroup ⟨st.repeater.logGroupName⟩ s1 with ⟨_ | e2, s2⟩
      · rcases h3 : conn.CreateLogStream
          ⟨st.repeater.logGroupName, st.repeater.logStreamName⟩ s2 with ⟨_ | e3, s3⟩
        · simp only [recoverResourceNotFound, createStream, h1, hcode, createLogGroup, h2, h3,
            if_true]
          exact key _ (by simp [putCalls])
        · simp [recoverResourceNotFound, createStream, h1, hcode, createLogGroup, h2, h3,
            putCalls]
      · simp [recoverResourceNotFound, createStream, h1, hcode, createLogGroup, h2, putCalls]
    · simp [recoverResourceNotFound, createStream, h1, hcode, putCalls]
  · simp [recoverResourceNotFound, createStream, h1, putCalls]

theorem attempt_putCalls {σ : Type} (conn : CloudWatchLogs σ)
    (events : List InputLogEvent) (st : St σ) :
    putCalls (attempt conn events st).2.calls ≤ putCalls st.calls + 2 := by
  have hp := putEvents_putCalls conn events st
  unfold attempt
  split
  · next h => rw [h] at hp; simp only at hp ⊢; omega
  · next h => rw [h] at hp; simp only at hp ⊢; omega
  · next originalErr st1 h =>
    rw [h] at hp
    simp only at hp
    have hr := recoverResourceNotFound_putCalls conn events st1
    have hg := getNextToken_putCalls conn events st1
    split
    · split
      · split <;> next h2 => rw [h2] at hr; simp only at hr ⊢; omega
      · split
        · split <;> next h2 => rw [h2] at hg; simp only at hg ⊢; omega
        · split
          · split <;> next h2 => rw [h2] at hg; simp only at hg ⊢; omega
          · simp only; omega
    · simp only; omega

theorem WriteBatch_putCalls_of_token {σ : Type} (conn : CloudWatchLogs σ)
    (marshal : Record → Except GoError String) (messageId : Int)
    (repeater : CloudWatchJournalRepeater) (records : List Record) (sink : σ)
    (htoken : repeater.nextSequenceToken ≠ "") :
    putCalls (WriteBatch conn marshal messageId repeater records sink).calls ≤ 2 := by
  rcases h : (annotate marshal messageId records).events with e | events
  · simp [WriteBatch, h, putCalls]
  · have ha := attempt_putCalls conn events ⟨repeater, sink, []⟩
    simp only [WriteBatch, h, prime, htoken, if_false]
    simpa [putCalls] using ha

/-! ## The two unchecked type assertions -/

theorem attempt_non_aws_error {σ : Type} (conn : CloudWatchLogs σ)
    (events : List InputLogEvent) (st : St σ) (text : String) (s2 : σ)
    (hput : conn.PutLogEvents (putRequest st.repeater events) st.sink =
      (.error (.errorString text), s2)) :
    attempt conn events st =
      (.returned none,
        { st with
          sink := s2
          calls := st.calls ++
            [.PutLogEvents (putRequest st.repeater events) (.error (.errorString text))] }) := by
  simp [attempt, putEvents, hput]

theorem attempt_createStream_non_aws_error {σ : Type} (conn : CloudWatchLogs σ)
    (events : List InputLogEvent) (st : St σ) (text1 text2 : String) (s2 s3 : σ)
    (hput : conn.PutLogEvents (putRequest st.repeater events) st.sink =
      (.error (.awserr "ResourceNotFoundException" text1), s2))
    (hcreate : conn.CreateLogStream ⟨st.repeater.logGroupName, st.repeater.logStreamName⟩ s2 =
      (some (.errorString text2), s3)) :
    (attempt conn events st).1 = .panicked := by
  simp [attempt, putEvents, hput, recoverResourceNotFound, createStream, hcreate]

/-! ## Priming with an empty token -/

/-- C1, at the failing input: with an empty token, a lookup that finds token `T` and a sink
that accepts every append, `WriteBatch` returns nil after issuing two `PutLogEvents` calls
for the same events, both accepted, and the repeater holds the next-token of the second
call (`T2`), not of the first (`T1`). -/
theorem priming_success_appends_twice :
    primingRun.outcome = .returned none ∧
      primingRun.calls =
        [.DescribeLogStreams ⟨"group", "stream", 1⟩ (.ok ⟨[⟨"stream", some "T"⟩]⟩),
          .PutLogEvents ⟨batchEvents, "group", "stream", some "T"⟩ (.ok ⟨some "T1"⟩),
          .PutLogEvents ⟨batchEvents, "group", "stream", some "T1"⟩ (.ok ⟨some "T2"⟩)] ∧
      putCalls primingRun.calls = 2 ∧
      acceptedPuts primingRun.calls = 2 ∧
      primingRun.repeater.nextSequenceToken = "T2" := by
  decide

/-- C6, at the failing input: one `WriteBatch` call issues three `PutLogEvents` calls. -/
theorem three_appends_in_one_call :
    putCalls threeAppendsRun.calls = 3 ∧
      threeAppendsRun.calls =
        [.DescribeLogStreams ⟨"group", "stream", 1⟩ (.ok ⟨[⟨"stream", some "T0"⟩]⟩),
          .PutLogEvents ⟨batchEvents, "group", "stream", some "T0"⟩
            (.error (awsError "ThrottlingException")),
          .PutLogEvents ⟨batchEvents, "group", "stream", some "T0"⟩
            (.error (awsError "InvalidSequenceTokenException")),
          .DescribeLogStreams ⟨"group", "stream", 1⟩ (.ok ⟨[⟨"stream", some "T2"⟩]⟩),
          .PutLogEvents ⟨batchEvents, "group", "stream", some "T2"⟩ (.ok ⟨some "T3"⟩)] ∧
      threeAppendsRun.outcome = .returned none ∧
      threeAppendsRun.repeater.nextSequenceToken = "T3" := by
  decide

/-! ## Recovery after a rejected append -/

/-- C2, at the failing input: after `DataAlreadyAcceptedException` and a lookup that finds
token `T5`, `WriteBatch` issues a second `PutLogEvents` call carrying `T5`, and the repeater
ends with that call's next-token `T6`, not with `T5`. -/
theorem alreadyAccepted_appends_again :
    alreadyAcceptedRun.outcome = .returned none ∧
      alreadyAcceptedRun.calls =
        [.PutLogEvents ⟨batchEvents, "group", "stream", some "T1"⟩
            (.error (awsError "DataAlreadyAcceptedException")),
          .DescribeLogStreams ⟨"group", "stream", 1⟩ (.ok ⟨[⟨"stream", some "T5"⟩]⟩),
          .PutLogEvents ⟨batchEvents, "group", "stream", some "T5"⟩ (.ok ⟨some "T6"⟩)] ∧
      putCalls alreadyAcceptedRun.calls = 2 ∧
      alreadyAcceptedRun.repeater.nextSequenceToken = "T6" := by
  decide

/-- C3 fails at a concrete input: the append reports `InvalidSequenceTokenException`, the
lookup finds no stream, and `WriteBatch` returns an error without any retried append. -/
theorem mismatch_no_stream_no_retry :
    mismatchNoStreamRun.calls =
        [.PutLogEvents ⟨batchEvents, "group", "stream", some "T1"⟩
            (.error (awsError "InvalidSequenceTokenException")),
          .DescribeLogStreams ⟨"group", "stream", 1⟩ (.ok ⟨[]⟩)] ∧
      putCalls mismatchNoStreamRun.calls = 1 ∧
      mismatchNoStreamRun.outcome =
        .returned (some (Errorf "Next token failed after InvalidSequenceTokenException : "
          (.errorString "failed to put events after looking for next sequence"))) := by
  decide

/-- C3, amended: when the append attempt of line 179 reports `InvalidSequenceTokenException`,
exactly one `DescribeLogStreams` call follows. If it finds a stream with token `T`, exactly
one retried `PutLogEvents` call carrying `T` follows; `WriteBatch` returns nil with the
retry's next-token adopted when the retry is accepted, and an error quoting the retry's
error, with the repeater holding `T`, when it is rejected. If the lookup fails or finds no
stream, no append is retried and `WriteBatch` returns an error. -/
theorem WriteBatch_invalidSequenceToken {σ : Type} (conn : CloudWatchLogs σ)
    (marshal : Record → Except GoError String) (messageId : Int)
    (repeater : CloudWatchJournalRepeater) (records : List Record) (sink : σ)
    (events : List InputLogEvent) (st1 : St σ) (text : String) (s2 s3 : σ)
    (lookup : Except GoError DescribeLogStreamsOutput)
    (hloop : (annotate marshal messageId records).events = .ok events)
    (hprime : prime conn events ⟨repeater, sink, []⟩ = (.returned none, st1))
    (hput : conn.PutLogEvents (putRequest st1.repeater events) st1.sink =
      (.error (.awserr "InvalidSequenceTokenException" text), s2))
    (hlookup : conn.DescribeLogStreams (describeRequest st1.repeater) s2 = (lookup, s3)) :
    (∀ (stream : LogStream) (rest : List LogStream) (T : String)
        (retry : Except GoError PutLogEventsOutput) (s4 : σ),
        lookup = .ok ⟨stream :: rest⟩ → stream.UploadSequenceToken = some T →
        conn.PutLogEvents
          (putRequest { st1.repeater with nextSequenceToken := T } events) s3 = (retry, s4) →
        (WriteBatch conn marshal messageId repeater records sink).calls =
            st1.calls ++
              [.PutLogEvents (putRequest st1.repeater events)
                  (.error (.awserr "InvalidSequenceTokenException" text)),
                .DescribeLogStreams (describeRequest st1.repeater) lookup,
                .PutLogEvents
                  (putRequest { st1.repeater with nextSequenceToken := T } events) retry] ∧
          (∀ T1 : String, retry = .ok ⟨some T1⟩ →
            (WriteBatch conn marshal messageId repeater records sink).outcome
                = .returned none ∧
              (WriteBatch conn marshal messageId repeater records sink).repeater
                = { st1.repeater with nextSequenceToken := T1 }) ∧
          (∀ err : GoError, retry = .error err →
            (WriteBatch conn marshal messageId repeater records sink).outcome =
                .returned (some
                  (Errorf "Next token failed after InvalidSequenceTokenException : "
                    (Errorf "failed to put events after sequence lookup: : " err))) ∧
              (WriteBatch conn marshal messageId repeater records sink).repeater
                = { st1.repeater with nextSequenceToken := T })) ∧
      ((lookup = .ok ⟨[]⟩ ∨ ∃ err, lookup = .error err) →
        (WriteBatch conn marshal messageId repeater records sink).calls =
            st1.calls ++
              [.PutLogEvents (putRequest st1.repeater events)
                  (.error (.awserr "InvalidSequenceTokenException" text)),
                .DescribeLogStreams (describeRequest st1.repeater) lookup] ∧
          (∃ err : GoError,
            (WriteBatch conn marshal messageId repeater records sink).outcome
              = .returned (some err)) ∧
          (WriteBatch conn marshal messageId repeater records sink).repeater
            = st1.repeater) := by
  refine ⟨?_, ?_⟩
  · intro stream rest T retry s4 hl hT hretry
    subst hl
    obtain ⟨name, tok⟩ := stream
    simp only at hT
    subst hT
    rcases retry with e | ⟨_ | t⟩ <;>
      simp [WriteBatch, hloop, hprime, attempt, putEvents, hput, getNextToken, describeRequest,
        putRequest, hretry] <;>
      simp_all [describeRequest, putRequest]
  · rintro (hl | ⟨err, hl⟩) <;> subst hl <;>
      simp [WriteBatch, hloop, hprime, attempt, putEvents, hput, getNextToken, hlookup]

/-- C3, amended, at a concrete input: token `T1` is stale, the lookup finds `T2`, and the
retried append carrying `T2` is accepted with next-token `T3`. -/
theorem WriteBatch_invalidSequenceToken_witness :
    mismatchRun.calls =
        [.PutLogEvents ⟨batchEvents, "group", "stream", some "T1"⟩
            (.error (awsError "InvalidSequenceTokenException")),
          .DescribeLogStreams ⟨"group", "stream", 1⟩ (.ok ⟨[⟨"stream", some "T2"⟩]⟩),
          .PutLogEvents ⟨batchEvents, "group", "stream", some "T2"⟩ (.ok ⟨some "T3"⟩)] ∧
      mismatchRun.outcome = .returned none ∧
      mismatchRun.repeater = ⟨"group", "stream", "T3"⟩ :=
  have h := (WriteBatch_invalidSequenceToken scripted marshalOk 0 holdingT1 batch staleToken
    batchEvents ⟨holdingT1, staleToken, []⟩ "InvalidSequenceTokenException: rejected"
    (staleToken.drop 1) (staleToken.drop 2) (.ok ⟨[⟨"stream", some "T2"⟩]⟩)
    rfl rfl rfl rfl).1 ⟨"stream", some "T2"⟩ [] "T2" (.ok ⟨some "T3"⟩) [] rfl rfl rfl
  ⟨h.1, (h.2.1 "T3" rfl).1, (h.2.1 "T3" rfl).2⟩

/-- C4, at the failing input: the only append fails with an error that is not an
`awserr.Error`, no append is accepted, none reports `DataAlreadyAcceptedException`, and
`WriteBatch` returns nil. -/
theorem non_aws_failure_swallowed :
    timeoutRun.outcome = .returned none ∧
      timeoutRun.calls =
        [.PutLogEvents ⟨batchEvents, "group", "stream", some "T1"⟩ (.error timeout)] ∧
      acceptedPuts timeoutRun.calls = 0 ∧
      timeoutRun.repeater.nextSequenceToken = "T1" := by
  decide

/-- C5 fails at a concrete input: the append fails with the AWS error `ThrottlingException`
and `WriteBatch` returns not that error but a new error that quotes its text. -/
theorem throttled_error_not_returned_unchanged :
    throttledRun.outcome ≠ .returned (some (awsError "ThrottlingException")) ∧
      throttledRun.outcome =
        .returned (some (.errorString
          ("failed to put events: : ThrottlingException: rejected " ++
            "ThrottlingException: rejected"))) := by
  decide

/-- C5, amended: with a non-empty token, when the append fails with an AWS error whose code
is none of `ResourceNotFoundException`, `DataAlreadyAcceptedException` and
`InvalidSequenceTokenException`, `WriteBatch` issues no further remote call, leaves the
repeater as it was, and returns a new error whose text is `failed to put events: : `
followed by the text of the original error, twice. -/
theorem WriteBatch_other_aws_error {σ : Type} (conn : CloudWatchLogs σ)
    (marshal : Record → Except GoError String) (messageId : Int)
    (repeater : CloudWatchJournalRepeater) (records : List Record) (sink : σ)
    (events : List InputLogEvent) (code text : String) (s2 : σ)
    (htoken : repeater.nextSequenceToken ≠ "")
    (hloop : (annotate marshal messageId records).events = .ok events)
    (hput : conn.PutLogEvents (putRequest repeater events) sink =
      (.error (.awserr code text), s2))
    (hnf : code ≠ "ResourceNotFoundException")
    (haa : code ≠ "DataAlreadyAcceptedException")
    (hist : code ≠ "InvalidSequenceTokenException") :
    (WriteBatch conn marshal messageId repeater records sink).calls =
        [.PutLogEvents (putRequest repeater events) (.error (.awserr code text))] ∧
      (WriteBatch conn marshal messageId repeater records sink).outcome =
        .returned (some (.errorString ("failed to put events: : " ++ text ++ " " ++ text))) ∧
      (WriteBatch conn marshal messageId repeater records sink).repeater = repeater := by
  simp [WriteBatch, hloop, prime, htoken, attempt, putEvents, hput, hnf, haa, hist, Errorf,
    GoError.Error]

/-- C5, amended, at a concrete input: the AWS error `ThrottlingException`. -/
theorem WriteBatch_other_aws_error_witness :
    throttledRun.calls =
        [.PutLogEvents (putRequest holdingT1 batchEvents)
          (.error (.awserr "ThrottlingException" "ThrottlingException: rejected"))] ∧
      throttledRun.outcome =
        .returned (some (.errorString
          ("failed to put events: : " ++ "ThrottlingException: rejected" ++ " " ++
            "ThrottlingException: rejected"))) ∧
      throttledRun.repeater = holdingT1 :=
  WriteBatch_other_aws_error scripted marshalOk 0 holdingT1 batch _ batchEvents
    "ThrottlingException" "ThrottlingException: rejected" [] (by decide) rfl rfl
    (by decide) (by decide) (by decide)

/-! ## Provisioning recovery -/

/-- C7 fails at a concrete input: on a sink where neither group nor stream exists,
`WriteBatch` returns nil after one `CreateLogGroup` call and two `CreateLogStream` calls. -/
theorem provisioning_creates_stream_twice :
    createStreamCalls provisionRun.calls = 2 ∧
      createGroupCalls provisionRun.calls = 1 ∧
      provisionRun.outcome = .returned none := by
  decide

/-- C7, amended: with an empty token, when the lookup finds nothing, the append reports
`ResourceNotFoundException`, `CreateLogStream` reports `ResourceNotFoundException`,
`CreateLogGroup` succeeds and after it `CreateLogStream` and the append succeed, `WriteBatch`
issues exactly one `CreateLogGroup` call and exactly two `CreateLogStream` calls (the
rejected one and the successful one), and returns nil holding the append's next-token. -/
theorem WriteBatch_provisions_group_and_stream {σ : Type} (conn : CloudWatchLogs σ)
    (marshal : Record → Except GoError String) (messageId : Int)
    (repeater : CloudWatchJournalRepeater) (records : List Record) (sink : σ)
    (events : List InputLogEvent) (lookup : Except GoError DescribeLogStreamsOutput)
    (text1 text2 T : String) (s1 s2 s3 s4 s5 s6 : σ)
    (htoken : repeater.nextSequenceToken = "")
    (hloop : (annotate marshal messageId records).events = .ok events)
    (hlookup : conn.DescribeLogStreams (describeRequest repeater) sink = (lookup, s1))
    (hnone : ∀ out, lookup = .ok out → out.LogStreams = [])
    (hput : conn.PutLogEvents (putRequest repeater events) s1 =
      (.error (.awserr "ResourceNotFoundException" text1), s2))
    (hstream1 : conn.CreateLogStream ⟨repeater.logGroupName, repeater.logStreamName⟩ s2 =
      (some (.awserr "ResourceNotFoundException" text2), s3))
    (hgroup : conn.CreateLogGroup ⟨repeater.logGroupName⟩ s3 = (none, s4))
    (hstream2 : conn.CreateLogStream ⟨repeater.logGroupName, repeater.logStreamName⟩ s4 =
      (none, s5))
    (hretry : conn.PutLogEvents (putRequest repeater events) s5 = (.ok ⟨some T⟩, s6)) :
    (WriteBatch conn marshal messageId repeater records sink).calls =
        [.DescribeLogStreams (describeRequest repeater) lookup,
          .PutLogEvents (putRequest repeater events)
            (.error (.awserr "ResourceNotFoundException" text1)),
          .CreateLogStream ⟨repeater.logGroupName, repeater.logStreamName⟩
            (some (.awserr "ResourceNotFoundException" text2)),
          .CreateLogGroup ⟨repeater.logGroupName⟩ none,
          .CreateLogStream ⟨repeater.logGroupName, repeater.logStreamName⟩ none,
          .PutLogEvents (putRequest repeater events) (.ok ⟨some T⟩)] ∧
      createGroupCalls (WriteBatch conn marshal messageId repeater records sink).calls = 1 ∧
      createStreamCalls (WriteBatch conn marshal messageId repeater records sink).calls = 2 ∧
      (WriteBatch conn marshal messageId repeater records sink).outcome = .returned none ∧
      (WriteBatch conn marshal messageId repeater records sink).repeater.nextSequenceToken
        = T := by
  rcases lookup with e | ⟨⟨ls⟩⟩
  · simp [WriteBatch, hloop, prime, htoken, getNextToken, hlookup, attempt, putEvents, hput,
      recoverResourceNotFound, createStream, createLogGroup, hstream1, hgroup, hstream2, hretry,
      createGroupCalls, createStreamCalls]
  · have hls : ls = [] := hnone ⟨ls⟩ rfl
    subst hls
    simp [WriteBatch, hloop, prime, htoken, getNextToken, hlookup, attempt, putEvents, hput,
      recoverResourceNotFound, createStream, createLogGroup, hstream1, hgroup, hstream2, hretry,
      createGroupCalls, createStreamCalls]

/-- C7, amended, at a concrete input: neither the group nor the stream exists. -/
theorem WriteBatch_provisions_group_and_stream_witness :
    createGroupCalls provisionRun.calls = 1 ∧
      createStreamCalls provisionRun.calls = 2 ∧
      provisionRun.outcome = .returned none ∧
      provisionRun.repeater.nextSequenceToken = "T1" :=
  (WriteBatch_provisions_group_and_stream scripted marshalOk 0 fresh batch nothingExists
    batchEvents (.error (awsError "ResourceNotFoundException"))
    "ResourceNotFoundException: rejected" "ResourceNotFoundException: rejected" "T1"
    (nothingExists.drop 1) (nothingExists.drop 2) (nothingExists.drop 3)
    (nothingExists.drop 4) (nothingExists.drop 5) [] rfl rfl rfl
    (by intro out h; cases h) rfl rfl rfl rfl rfl).2

/-- C8: when the append attempt of line 179 reports `ResourceNotFoundException` and
`CreateLogStream` then succeeds, the calls issued from that attempt on are exactly the failed
append, the stream creation and one retried append whose request (event list and token) is
the request of the failed attempt; no `CreateLogGroup` call is issued; and when the retry
succeeds with next-token `T`, `WriteBatch` returns nil and the repeater holds `T`. -/
theorem WriteBatch_notFound_then_createStream {σ : Type} (conn : CloudWatchLogs σ)
    (marshal : Record → Except GoError String) (messageId : Int)
    (repeater : CloudWatchJournalRepeater) (records : List Record) (sink : σ)
    (events : List InputLogEvent) (st1 : St σ) (text : String) (s2 s3 s4 : σ)
    (retry : Except GoError PutLogEventsOutput)
    (hloop : (annotate marshal messageId records).events = .ok events)
    (hprime : prime conn events ⟨repeater, sink, []⟩ = (.returned none, st1))
    (hput : conn.PutLogEvents (putRequest st1.repeater events) st1.sink =
      (.error (.awserr "ResourceNotFoundException" text), s2))
    (hcreate : conn.CreateLogStream
      ⟨st1.repeater.logGroupName, st1.repeater.logStreamName⟩ s2 = (none, s3))
    (hretry : conn.PutLogEvents (putRequest st1.repeater events) s3 = (retry, s4)) :
    (WriteBatch conn marshal messageId repeater records sink).calls =
        st1.calls ++
          [.PutLogEvents (putRequest st1.repeater events)
              (.error (.awserr "ResourceNotFoundException" text)),
            .CreateLogStream ⟨st1.repeater.logGroupName, st1.repeater.logStreamName⟩ none,
            .PutLogEvents (putRequest st1.repeater events) retry] ∧
      createGroupCalls (WriteBatch conn marshal messageId repeater records sink).calls = 0 ∧
      ∀ T : String, retry = .ok ⟨some T⟩ →
        (WriteBatch conn marshal messageId repeater records sink).outcome = .returned none ∧
        (WriteBatch conn marshal messageId repeater records sink).repeater.nextSequenceToken
          = T := by
  have hg : createGroupCalls st1.calls = 0 := by
    have h := prime_createGroupCalls conn events ⟨repeater, sink, []⟩
    rw [hprime] at h
    simpa [createGroupCalls] using h
  rcases retry with e | ⟨_ | t⟩ <;>
    simp [WriteBatch, hloop, hprime, attempt, putEvents, hput, recoverResourceNotFound,
      createStream, hcreate, hretry, createGroupCalls] <;>
    simpa [createGroupCalls] using hg

/-- C8, at a concrete input: a fresh repeater whose stream is missing and can be created. -/
theorem WriteBatch_notFound_then_createStream_witness :
    (WriteBatch scripted marshalOk 0 fresh batch streamMissing).outcome = .returned none ∧
      (WriteBatch scripted marshalOk 0 fresh batch streamMissing).repeater.nextSequenceToken
        = "T1" ∧
      createGroupCalls (WriteBatch scripted marshalOk 0 fresh batch streamMissing).calls = 0 ∧
      putCalls (WriteBatch scripted marshalOk 0 fresh batch streamMissing).calls = 2 :=
  have h := WriteBatch_notFound_then_createStream scripted marshalOk 0 fresh batch streamMissing
    batchEvents
    ⟨fresh, streamMissing.tail, [.DescribeLogStreams (describeRequest fresh) (.ok ⟨[]⟩)]⟩
    "ResourceNotFoundException: rejected" (streamMissing.drop 2) (streamMissing.drop 3) []
    (.ok ⟨some "T1"⟩) rfl rfl rfl rfl rfl
  ⟨(h.2.2 "T1" rfl).1, (h.2.2 "T1" rfl).2, h.2.1, by rw [h.1]; decide⟩

/-- C9, at the failing input: `CreateLogStream` fails with an error that is not an
`awserr.Error` and `WriteBatch` panics instead of returning an error. -/
theorem createStream_non_aws_error_panics :
    createTimeoutRun.outcome = .panicked ∧
      createTimeoutRun.calls =
        [.DescribeLogStreams ⟨"group", "stream", 1⟩ (.ok ⟨[]⟩),
          .PutLogEvents ⟨batchEvents, "group", "stream", none⟩
            (.error (awsError "ResourceNotFoundException")),
          .CreateLogStream ⟨"group", "stream"⟩ (some timeout)] := by
  decide

/-! ## Sequence numbers -/

theorem int64_of_inRange (x : Int) (h1 : -2 ^ 63 ≤ x) (h2 : x < 2 ^ 63) : int64 x = x := by
  unfold int64
  rw [Int.emod_eq_of_lt] <;> omega

theorem WriteBatch_seqIds {σ : Type} (conn : CloudWatchLogs σ)
    (marshal : Record → Except GoError String) (messageId : Int)
    (repeater : CloudWatchJournalRepeater) (records : List Record) (sink : σ) :
    (WriteBatch conn marshal messageId repeater records sink).seqIds
        = (annotate marshal messageId records).seqIds ∧
      (WriteBatch conn marshal messageId repeater records sink).messageId
        = (annotate marshal messageId records).messageId ∧
      (WriteBatch conn marshal messageId repeater records sink).records
        = (annotate marshal messageId records).records := by
  rcases h : (annotate marshal messageId records).events with e | events
  · simp [WriteBatch, h]
  · rcases hp : prime conn events ⟨repeater, sink, []⟩ with ⟨_ | _, st1⟩ <;>
      simp [WriteBatch, h, hp]

theorem prime_putCalls {σ : Type} (conn : CloudWatchLogs σ) (events : List InputLogEvent)
    (st : St σ) :
    putCalls (prime conn events st).2.calls ≤ putCalls st.calls + 1 := by
  have h := getNextToken_putCalls conn events st
  unfold prime
  split
  · split <;> next hp => rw [hp] at h; exact h
  · exact Nat.le_succ _

/-- C15: whatever the batch, the repeater state and the behaviour of the sink, one call of
`WriteBatch` issues at most three `PutLogEvents` calls. -/
theorem WriteBatch_putCalls_le_three {σ : Type} (conn : CloudWatchLogs σ)
    (marshal : Record → Except GoError String) (messageId : Int)
    (repeater : CloudWatchJournalRepeater) (records : List Record) (sink : σ) :
    putCalls (WriteBatch conn marshal messageId repeater records sink).calls ≤ 3 := by
  rcases h : (annotate marshal messageId records).events with e | events
  · simp [WriteBatch, h, putCalls]
  · have hp := prime_putCalls conn events ⟨repeater, sink, []⟩
    rcases hprime : prime conn events ⟨repeater, sink, []⟩ with ⟨_ | _, st1⟩
    · have ha := attempt_putCalls conn events st1
      rw [hprime] at hp
      simp only [WriteBatch, h, hprime]
      simp only [putCalls, List.countP_nil] at hp ha ⊢
      omega
    · rw [hprime] at hp
      simp only [WriteBatch, h, hprime]
      simp only [putCalls, List.countP_nil] at hp ⊢
      omega

/-- C16: with a non-empty token, when the first `PutLogEvents` attempt is accepted with
next-token `T`, that call is the only remote call of `WriteBatch` (no `DescribeLogStreams`,
`CreateLogStream` or `CreateLogGroup`), `WriteBatch` returns nil, and the repeater holds
`T`. -/
theorem WriteBatch_accepted_first_attempt {σ : Type} (conn : CloudWatchLogs σ)
    (marshal : Record → Except GoError String) (messageId : Int)
    (repeater : CloudWatchJournalRepeater) (records : List Record) (sink : σ)
    (events : List InputLogEvent) (T : String) (s2 : σ)
    (htoken : repeater.nextSequenceToken ≠ "")
    (hloop : (annotate marshal messageId records).events = .ok events)
    (hput : conn.PutLogEvents (putRequest repeater events) sink = (.ok ⟨some T⟩, s2)) :
    (WriteBatch conn marshal messageId repeater records sink).calls =
        [.PutLogEvents (putRequest repeater events) (.ok ⟨some T⟩)] ∧
      (WriteBatch conn marshal messageId repeater records sink).outcome = .returned none ∧
      (WriteBatch conn marshal messageId repeater records sink).repeater =
        { repeater with nextSequenceToken := T } := by
  simp [WriteBatch, hloop, prime, htoken, attempt, putEvents, hput]

/-- C16, at a concrete input: token `T1`, the append is accepted with next-token `T2`. -/
theorem WriteBatch_accepted_first_attempt_witness :
    acceptedRun.calls =
        [.PutLogEvents ⟨batchEvents, "group", "stream", some "T1"⟩ (.ok ⟨some "T2"⟩)] ∧
      acceptedRun.outcome = .returned none ∧
      acceptedRun.repeater = ⟨"group", "stream", "T2"⟩ :=
  WriteBatch_accepted_first_attempt scripted marshalOk 0 holdingT1 batch _ batchEvents "T2" []
    (by decide) rfl rfl

/-! ## Consequences of the priming append -/

/-- C13, at the failing input: the priming lookup finds token `T0`, the append made with it
fails, and `WriteBatch` goes on to a further `PutLogEvents` call and returns nil; the
failure is not its result. -/
theorem priming_failure_not_surfaced :
    primingFailureRun.calls =
        [.DescribeLogStreams ⟨"group", "stream", 1⟩ (.ok ⟨[⟨"stream", some "T0"⟩]⟩),
          .PutLogEvents ⟨batchEvents, "group", "stream", some "T0"⟩
            (.error (awsError "ThrottlingException")),
          .PutLogEvents ⟨batchEvents, "group", "stream", some "T0"⟩ (.ok ⟨some "T1"⟩)] ∧
      putCalls primingFailureRun.calls = 2 ∧
      primingFailureRun.outcome = .returned none := by
  decide

/-- C14, at the failing input: the priming append is accepted, the append of line 179 is
throttled, and `WriteBatch` returns an error although one `PutLogEvents` call of the
invocation was accepted. -/
theorem error_returned_after_accepted_append :
    deliveredThenThrottledRun.outcome =
        .returned (some (Errorf "failed to put events: : " (awsError "ThrottlingException"))) ∧
      acceptedPuts deliveredThenThrottledRun.calls = 1 ∧
      deliveredThenThrottledRun.calls =
        [.DescribeLogStreams ⟨"group", "stream", 1⟩ (.ok ⟨[⟨"stream", some "T"⟩]⟩),
          .PutLogEvents ⟨batchEvents, "group", "stream", some "T"⟩ (.ok ⟨some "T1"⟩),
          .PutLogEvents ⟨batchEvents, "group", "stream", some "T1"⟩
            (.error (awsError "ThrottlingException"))] := by
  decide

/-! ## What the remote calls can change -/

theorem Follows_refl {σ : Type} (events : List InputLogEvent) (st : St σ) :
    Follows events st st :=
  ⟨List.prefix_refl _, rfl, rfl, le_refl _, le_refl _, fun _ _ => rfl, fun h => h⟩

theorem Follows_trans {σ : Type} {events : List InputLogEvent} {a b c : St σ}
    (hab : Follows events a b) (hbc : Follows events b c) : Follows events a c := by
  obtain ⟨x1, g1, n1, p1, l1, t1, c1⟩ := hab
  obtain ⟨x2, g2, n2, p2, l2, t2, c2⟩ := hbc
  refine ⟨x1.trans x2, g2.trans g1, n2.trans n1, le_trans p1 p2, le_trans l1 l2, ?_,
    fun h => c2 (c1 h)⟩
  intro hp hl
  rw [t2 (by omega) (by omega), t1 (by omega) (by omega)]

theorem putEvents_follows {σ : Type} (conn : CloudWatchLogs σ) (events : List InputLogEvent)
    (st : St σ) : Follows events st (putEvents conn events st).2 := by
  rcases h : conn.PutLogEvents (putRequest st.repeater events) st.sink with ⟨e | ⟨_ | t⟩, s⟩ <;>
    simp [Follows, PutsCarry, putEvents, h, acceptedPuts, lookupsFound] <;>
    (intro hc request result hm
     rcases hm with hm | hm
     · exact hc _ _ hm
     · rw [hm.1]; rfl)

theorem createStream_follows {σ : Type} (conn : CloudWatchLogs σ) (events : List InputLogEvent)
    (st : St σ) : Follows events st (createStream conn st).2 := by
  simp [Follows, PutsCarry, createStream, acceptedPuts, lookupsFound]

theorem createLogGroup_follows {σ : Type} (conn : CloudWatchLogs σ)
    (events : List InputLogEvent) (st : St σ) : Follows events st (createLogGroup conn st).2 := by
  simp [Follows, PutsCarry, createLogGroup, acceptedPuts, lookupsFound]

theorem getNextToken_follows {σ : Type} (conn : CloudWatchLogs σ) (events : List InputLogEvent)
    (st : St σ) : Follows events st (getNextToken conn events st).2 := by
  rcases h : conn.DescribeLogStreams (describeRequest st.repeater) st.sink with
    ⟨e | ⟨_ | ⟨⟨n, _ | t⟩, rest⟩⟩, s⟩
  · simp [Follows, PutsCarry, getNextToken, h, acceptedPuts, lookupsFound]
  · simp [Follows, PutsCarry, getNextToken, h, acceptedPuts, lookupsFound]
  · simp [Follows, PutsCarry, getNextToken, h, acceptedPuts, lookupsFound]
  · have hstep : Follows events st
        { repeater := { st.repeater with nextSequenceToken := t }
          sink := s
          calls := st.calls ++ [.DescribeLogStreams (describeRequest st.repeater)
            (.ok ⟨⟨n, some t⟩ :: rest⟩)] } := by
      simp [Follows, PutsCarry, acceptedPuts, lookupsFound]
    have hput := putEvents_follows conn events
        { repeater := { st.repeater with nextSequenceToken := t }
          sink := s
          calls := st.calls ++ [.DescribeLogStreams (describeRequest st.repeater)
            (.ok ⟨⟨n, some t⟩ :: rest⟩)] }
    have hall := Follows_trans hstep hput
    simp only [getNextToken, h]
    split <;> next hp => rw [hp] at hall; exact hall

theorem recoverResourceNotFound_follows {σ : Type} (conn : CloudWatchLogs σ)
    (events : List InputLogEvent) (st : St σ) :
    Follows events st (recoverResourceNotFound conn events st).2 := by
  have key : ∀ st1 : St σ, Follows events st st1 →
      Follows events st (match putEvents conn events st1 with
        | (.returned (some err), st2) =>
          ((.returned (some (Errorf "failed to put events: " err)), st2) : Outcome × St σ)
        | (.returned none, st2) => (.returned none, st2)
        | (.panicked, st2) => (.panicked, st2)).2 := by
    intro st1 h1
    have hc := Follows_trans h1 (putEvents_follows conn events st1)
    split <;> next hp => rw [hp] at hc; exact hc
  have f1 := createStream_follows conn events st
  rcases h1 : createStream conn st with ⟨_ | ⟨code, text⟩ | text, st1⟩
  · rw [h1] at f1
    simp only [recoverResourceNotFound, h1]
    exact key _ f1
  · rw [h1] at f1
    have f2 := Follows_trans f1 (createLogGroup_follows conn events st1)
    by_cases hcode : code = "ResourceNotFoundException"
    · rcases h2 : createLogGroup conn st1 with ⟨_ | e2, st2⟩
      · rw [h2] at f2
        have f3 := Follows_trans f2 (createStream_follows conn events st2)
        rcases h3 : createStream conn st2 with ⟨_ | e3, st3⟩
        · rw [h3] at f3
          simp only [recoverResourceNotFound, h1, hcode, h2, h3, if_true]
          exact key _ f3
        · rw [h3] at f3
          simpa [recoverResourceNotFound, h1, hcode, h2, h3] using f3
      · rw [h2] at f2
        simpa [recoverResourceNotFound, h1, hcode, h2] using f2
    · simpa [recoverResourceNotFound, h1, hcode] using f1
  · rw [h1] at f1
    simpa [recoverResourceNotFound, h1] using f1

theorem prime_follows {σ : Type} (conn : CloudWatchLogs σ) (events : List InputLogEvent)
    (st : St σ) : Follows events st (prime conn events st).2 := by
  have h := getNextToken_follows conn events st
  unfold prime
  split
  · split <;> next hp => rw [hp] at h; exact h
  · exact Follows_refl events st

theorem attempt_follows {σ : Type} (conn : CloudWatchLogs σ) (events : List InputLogEvent)
    (st : St σ) : Follows events st (attempt conn events st).2 := by
  have hp := putEvents_follows conn events st
  unfold attempt
  split
  · next h => rw [h] at hp; exact hp
  · next h => rw [h] at hp; exact hp
  · next originalErr st1 h =>
    rw [h] at hp
    have hr := Follows_trans hp (recoverResourceNotFound_follows conn events st1)
    have hg := Follows_trans hp (getNextToken_follows conn events st1)
    split
    · split
      · split <;> next h2 => rw [h2] at hr; exact hr
      · split
        · split <;> next h2 => rw [h2] at hg; exact hg
        · split
          · split <;> next h2 => rw [h2] at hg; exact hg
          · exact hp
    · exact hp

theorem WriteBatch_follows {σ : Type} (conn : CloudWatchLogs σ)
    (marshal : Record → Except GoError String) (messageId : Int)
    (repeater : CloudWatchJournalRepeater) (records : List Record) (sink : σ)
    (events : List InputLogEvent) :
    Follows events ⟨repeater, sink, []⟩
      ⟨(WriteBatch conn marshal messageId repeater records sink).repeater,
        (WriteBatch conn marshal messageId repeater records sink).sink,
        (WriteBatch conn marshal messageId repeater records sink).calls⟩ ∨
      (annotate marshal messageId records).events ≠ .ok events := by
  rcases h : (annotate marshal messageId records).events with e | evs
  · right; simp
  · by_cases he : evs = events
    · subst he
      left
      have hp := prime_follows conn evs ⟨repeater, sink, []⟩
      rcases hprime : prime conn evs ⟨repeater, sink, []⟩ with ⟨_ | _, st1⟩
      · rw [hprime] at hp
        have ha := Follows_trans hp (attempt_follows conn evs st1)
        simpa [WriteBatch, h, hprime] using ha
      · rw [hprime] at hp
        simpa [WriteBatch, h, hprime] using hp
    · right; simpa using he

/-! ## Errors and accepted appends -/

theorem putEvents_error_accepted {σ : Type} (conn : CloudWatchLogs σ)
    (events : List InputLogEvent) (st : St σ) (err : GoError)
    (h : (putEvents conn events st).1 = .returned (some err)) :
    acceptedPuts (putEvents conn events st).2.calls = acceptedPuts st.calls := by
  rcases hr : conn.PutLogEvents (putRequest st.repeater events) st.sink with
    ⟨e | ⟨_ | t⟩, s⟩ <;>
    simp [putEvents, hr, acceptedPuts] at h ⊢

theorem getNextToken_error_accepted {σ : Type} (conn : CloudWatchLogs σ)
    (events : List InputLogEvent) (st : St σ) (err : GoError)
    (h : (getNextToken conn events st).1 = .returned (some err)) :
    acceptedPuts (getNextToken conn events st).2.calls = acceptedPuts st.calls := by
  rcases hr : conn.DescribeLogStreams (describeRequest st.repeater) st.sink with
    ⟨e | ⟨_ | ⟨⟨n, _ | t⟩, rest⟩⟩, s⟩
  · simp [getNextToken, hr, acceptedPuts]
  · simp [getNextToken, hr, acceptedPuts]
  · simp [getNextToken, hr] at h
  · simp only [getNextToken, hr] at h ⊢
    split at h
    · next e2 st2 hp =>
      have ha := putEvents_error_accepted conn events _ e2 (by rw [hp])
      rw [hp] at ha
      simpa [acceptedPuts] using ha
    · simp at h
    · simp at h

theorem recoverResourceNotFound_error_accepted {σ : Type} (conn : CloudWatchLogs σ)
    (events : List InputLogEvent) (st : St σ) (err : GoError)
    (h : (recoverResourceNotFound conn events st).1 = .returned (some err)) :
    acceptedPuts (recoverResourceNotFound conn events st).2.calls = acceptedPuts st.calls := by
  have key : ∀ st1 : St σ, acceptedPuts st1.calls = acceptedPuts st.calls →
      (match putEvents conn events st1 with
        | (.returned (some err), st2) =>
          ((.returned (some (Errorf "failed to put events: " err)), st2) : Outcome × St σ)
        | (.returned none, st2) => (.returned none, st2)
        | (.panicked, st2) => (.panicked, st2)).1 = .returned (some err) →
      acceptedPuts (match putEvents conn events st1 with
        | (.returned (some err), st2) =>
          ((.returned (some (Errorf "failed to put events: " err)), st2) : Outcome × St σ)
        | (.returned none, st2) => (.returned none, st2)
        | (.panicked, st2) => (.panicked, st2)).2.calls = acceptedPuts st.calls := by
    intro st1 h1 hres
    split at hres
    · next e2 st2 hp =>
      have ha := putEvents_error_accepted conn events st1 e2 (by rw [hp])
      rw [hp] at ha
      simp only at ha ⊢
      omega
    · simp at hres
    · simp at hres
  rcases h1 : conn.CreateLogStream ⟨st.repeater.logGroupName, st.repeater.logStreamName⟩ st.sink
    with ⟨_ | ⟨code, text⟩ | text, s1⟩
  · simp only [recoverResourceNotFound, createStream, h1] at h ⊢
    exact key _ (by simp [acceptedPuts]) h
  · by_cases hcode : code = "ResourceNotFoundException"
    · rcases h2 : conn.CreateLogGroup ⟨st.repeater.logGroupName⟩ s1 with ⟨_ | e2, s2⟩
      · rcases h3 : conn.CreateLogStream
          ⟨st.repeater.logGroupName, st.repeater.logStreamName⟩ s2 with ⟨_ | e3, s3⟩
        · simp only [recoverResourceNotFound, createStream, h1, hcode, createLogGroup, h2, h3,
            if_true] at h ⊢
          exact key _ (by simp [acceptedPuts]) h
        · simp [recoverResourceNotFound, createStream, h1, hcode, createLogGroup, h2, h3,
            acceptedPuts]
      · simp [recoverResourceNotFound, createStream, h1, hcode, createLogGroup, h2,
          acceptedPuts]
    · simp [recoverResourceNotFound, createStream, h1, hcode, acceptedPuts]
  · simp [recoverResourceNotFound, createStream, h1] at h

theorem attempt_error_accepted {σ : Type} (conn : CloudWatchLogs σ)
    (events : List InputLogEvent) (st : St σ) (err : GoError)
    (h : (attempt conn events st).1 = .returned (some err)) :
    acceptedPuts (attempt conn events st).2.calls = acceptedPuts st.calls := by
  unfold attempt at h ⊢
  split at h
  · simp at h
  · simp at h
  · next originalErr st1 hp =>
    have ha := putEvents_error_accepted conn events st originalErr (by rw [hp])
    rw [hp] at ha
    simp only at ha
    split at h
    · split at h
      · split at h
        · next e2 st2 h2 =>
          have hr := recoverResourceNotFound_error_accepted conn events st1 e2 (by rw [h2])
          simp_all
        · simp at h
        · simp at h
      · split at h
        · split at h
          · next e2 st2 h2 =>
            have hg := getNextToken_error_accepted conn events st1 e2 (by rw [h2])
            simp_all
          · simp at h
          · simp at h
        · split at h
          · split at h
            · next e2 st2 h2 =>
              have hg := getNextToken_error_accepted conn events st1 e2 (by rw [h2])
              simp_all
            · simp at h
            · simp at h
          · simp_all
    · simp at h

theorem WriteBatch_error_of_token {σ : Type} (conn : CloudWatchLogs σ)
    (marshal : Record → Except GoError String) (messageId : Int)
    (repeater : CloudWatchJournalRepeater) (records : List Record) (sink : σ) (err : GoError)
    (htoken : repeater.nextSequenceToken ≠ "")
    (h : (WriteBatch conn marshal messageId repeater records sink).outcome
      = .returned (some err)) :
    acceptedPuts (WriteBatch conn marshal messageId repeater records sink).calls = 0 := by
  rcases hl : (annotate marshal messageId records).events with e | events
  · simp [WriteBatch, hl, acceptedPuts]
  · have ha := attempt_error_accepted conn events ⟨repeater, sink, []⟩ err
      (by simpa [WriteBatch, hl, prime, htoken] using h)
    simpa [WriteBatch, hl, prime, htoken, acceptedPuts] using ha

/-- C18: in every call of `WriteBatch`, however it ends, the group name and the stream name
of the repeater are unchanged; and when no `PutLogEvents` call of the call is accepted and no
`DescribeLogStreams` call of the call lists a stream, the token of the repeater is unchanged
too. -/
theorem WriteBatch_frame {σ : Type} (conn : CloudWatchLogs σ)
    (marshal : Record → Except GoError String) (messageId : Int)
    (repeater : CloudWatchJournalRepeater) (records : List Record) (sink : σ) :
    (WriteBatch conn marshal messageId repeater records sink).repeater.logGroupName
        = repeater.logGroupName ∧
      (WriteBatch conn marshal messageId repeater records sink).repeater.logStreamName
        = repeater.logStreamName ∧
      (acceptedPuts (WriteBatch conn marshal messageId repeater records sink).calls = 0 →
        lookupsFound (WriteBatch conn marshal messageId repeater records sink).calls = 0 →
        (WriteBatch conn marshal messageId repeater records sink).repeater.nextSequenceToken
          = repeater.nextSequenceToken) := by
  rcases h : (annotate marshal messageId records).events with e | events
  · simp [WriteBatch, h]
  · rcases WriteBatch_follows conn marshal messageId repeater records sink events with hf | hf
    · obtain ⟨_, hg, hn, _, _, ht, _⟩ := hf
      exact ⟨hg, hn, fun ha hl => ht (by simpa [acceptedPuts] using ha)
        (by simpa [lookupsFound] using hl)⟩
    · exact absurd h hf

/-- C18, at a concrete input: the append reports `InvalidSequenceTokenException`, the lookup
lists no stream, and the repeater still holds `T1`. -/
theorem WriteBatch_frame_witness :
    mismatchNoStreamRun.repeater.logGroupName = "group" ∧
      mismatchNoStreamRun.repeater.logStreamName = "stream" ∧
      mismatchNoStreamRun.repeater.nextSequenceToken = "T1" :=
  have h := WriteBatch_frame scripted marshalOk 0 holdingT1 batch
    [.put (.error (awsError "InvalidSequenceTokenException")), .describe (.ok ⟨[]⟩)]
  ⟨h.1, h.2.1, h.2.2 (by decide) (by decide)⟩

/-! ## The events carried by the appends -/

theorem annotate_events (marshal : Record → Except GoError String) :
    ∀ (records : List Record) (m : Int) (events : List InputLogEvent),
      (annotate marshal m records).events = .ok events →
      events.length = records.length ∧
        events.map (fun e => e.Timestamp) = records.map (fun r => int64 r.TimeUsec) ∧
        (annotate marshal m records).seqIds.length = records.length ∧
        (annotate marshal m records).records =
          List.zipWith (fun r id => { r with SeqId := id }) records
            (annotate marshal m records).seqIds ∧
        (annotate marshal m records).records.map marshal =
          events.map (fun e => .ok e.Message)
  | [], m, events, h => by
    simp only [annotate, Except.ok.injEq] at h
    subst h
    simp [annotate]
  | record :: rest, m, events, h => by
    simp only [annotate] at h ⊢
    split at h
    · simp at h
    · next jsonData hm =>
      rcases hr : (annotate marshal (int64 (m + 1)) rest).events with e | evs
      · simp [hr] at h
      · simp only [hr, Except.ok.injEq] at h
        subst h
        have ih := annotate_events marshal rest (int64 (m + 1)) evs hr
        simp only [hm]
        refine ⟨by simp [ih.1], by simp [ih.2.1], by simp [ih.2.2.1], ?_, ?_⟩
        · rw [ih.2.2.2.1]
          simp [← ih.2.2.2.1]
        · simp [hm, ih.2.2.2.2]

/-- C12: when the serialization of a batch of `n` records succeeds, every `PutLogEvents`
call issued by `WriteBatch`, the first attempt and every retry alike, carries the same list
of exactly `n` events, in batch order: the timestamps are the `TimeUsec` fields of the
records (64-bit values), each record received its `SeqId` from `seqIds` in order, and each
message is the serialization of the record carrying that `SeqId`. -/
theorem WriteBatch_events {σ : Type} (conn : CloudWatchLogs σ)
    (marshal : Record → Except GoError String) (messageId : Int)
    (repeater : CloudWatchJournalRepeater) (records : List Record) (sink : σ)
    (events : List InputLogEvent)
    (hloop : (annotate marshal messageId records).events = .ok events)
    (hrange : ∀ r ∈ records, -2 ^ 63 ≤ r.TimeUsec ∧ r.TimeUsec < 2 ^ 63) :
    (∀ request result,
        SinkCall.PutLogEvents request result ∈
          (WriteBatch conn marshal messageId repeater records sink).calls →
        request.LogEvents = events) ∧
      events.length = records.length ∧
      events.map (fun e => e.Timestamp) = records.map (fun r => r.TimeUsec) ∧
      (WriteBatch conn marshal messageId repeater records sink).seqIds.length
        = records.length ∧
      (WriteBatch conn marshal messageId repeater records sink).records =
        List.zipWith (fun r id => { r with SeqId := id }) records
          (WriteBatch conn marshal messageId repeater records sink).seqIds ∧
      (WriteBatch conn marshal messageId repeater records sink).records.map marshal =
        events.map (fun e => .ok e.Message) := by
  have ha := annotate_events marshal records messageId events hloop
  have hw := WriteBatch_seqIds conn marshal messageId repeater records sink
  refine ⟨?_, ha.1, ?_, ?_, ?_, ?_⟩
  · rcases WriteBatch_follows conn marshal messageId repeater records sink events with hf | hf
    · exact hf.2.2.2.2.2.2 (by simp [PutsCarry])
    · exact absurd hloop hf
  · rw [ha.2.1]
    apply List.map_congr_left
    intro r hr
    exact int64_of_inRange _ (hrange r hr).1 (hrange r hr).2
  · rw [hw.1]; exact ha.2.2.1
  · rw [hw.2.2, hw.1]; exact ha.2.2.2.1
  · rw [hw.2.2]; exact ha.2.2.2.2

/-- C12, at a concrete input: a stale token, so that the batch of two records is appended
twice; both calls carry the same two events. -/
theorem WriteBatch_events_witness :
    (∀ request result, SinkCall.PutLogEvents request result ∈ mismatchRun.calls →
        request.LogEvents = batchEvents) ∧
      putCalls mismatchRun.calls = 2 ∧
      batchEvents.map (fun e => e.Timestamp) = batch.map (fun r => r.TimeUsec) ∧
      mismatchRun.records = [⟨1, 1000, "e1"⟩, ⟨2, 2000, "e2"⟩] :=
  have h := WriteBatch_events scripted marshalOk 0 holdingT1 batch staleToken batchEvents rfl
    (by decide)
  ⟨h.1, by decide, h.2.2.1, by decide⟩

/-! ## The first append of a call -/

theorem attempt_calls_prefix {σ : Type} (conn : CloudWatchLogs σ)
    (events : List InputLogEvent) (st : St σ) :
    st.calls ++ [.PutLogEvents (putRequest st.repeater events)
        (conn.PutLogEvents (putRequest st.repeater events) st.sink).1] <+:
      (attempt conn events st).2.calls := by
  rw [← putEvents_calls]
  unfold attempt
  split
  · next h => simp [h]
  · next h => simp [h]
  · next originalErr st1 h =>
    simp only [h]
    have hr := (recoverResourceNotFound_follows conn events st1).1
    have hg := (getNextToken_follows conn events st1).1
    split
    · split
      · split <;> next h2 => rw [h2] at hr; exact hr
      · split
        · split <;> next h2 => rw [h2] at hg; exact hg
        · split
          · split <;> next h2 => rw [h2] at hg; exact hg
          · exact List.prefix_refl _
    · exact List.prefix_refl _

theorem firstPut_of_prefix (request : PutLogEventsInput)
    (result : Except GoError PutLogEventsOutput) (calls : List SinkCall)
    (h : [SinkCall.PutLogEvents request result] <+: calls) : firstPut calls = some request := by
  obtain ⟨more, rfl⟩ := h
  rfl

/-- C11, amended: for two consecutive `WriteBatch` calls on the same repeater of which the
second returns nil, whatever the first returned and whatever happened to the counter and the
sink in between: when the token the repeater holds after the first call is not empty, it is
the token carried by the first `PutLogEvents` call of the second call. -/
theorem WriteBatch_next_call_carries_token {σ : Type} (conn : CloudWatchLogs σ)
    (marshal : Record → Except GoError String) (messageId1 messageId2 : Int)
    (repeater : CloudWatchJournalRepeater) (records1 records2 : List Record) (sink1 sink2 : σ)
    (hsecond : (WriteBatch conn marshal messageId2
      (WriteBatch conn marshal messageId1 repeater records1 sink1).repeater records2
      sink2).outcome = .returned none)
    (htoken : (WriteBatch conn marshal messageId1 repeater records1
      sink1).repeater.nextSequenceToken ≠ "") :
    (firstPut (WriteBatch conn marshal messageId2
      (WriteBatch conn marshal messageId1 repeater records1 sink1).repeater records2
      sink2).calls).map (fun request => request.SequenceToken) =
      some (some (WriteBatch conn marshal messageId1 repeater records1
        sink1).repeater.nextSequenceToken) := by
  generalize (WriteBatch conn marshal messageId1 repeater records1 sink1).repeater = held
    at hsecond htoken ⊢
  rcases h : (annotate marshal messageId2 records2).events with e | events
  · simp [WriteBatch, h] at hsecond
  · have hp := attempt_calls_prefix conn events ⟨held, sink2, []⟩
    have hc : (WriteBatch conn marshal messageId2 held records2 sink2).calls =
        (attempt conn events ⟨held, sink2, []⟩).2.calls := by
      simp [WriteBatch, h, prime, htoken]
    rw [hc, firstPut_of_prefix _ _ _ (by simpa using hp)]
    simp [putRequest, htoken]

/-- C11, amended, at a concrete input: the first call leaves token `T2`, and the first
append of the second call carries `T2`. -/
theorem WriteBatch_next_call_carries_token_witness :
    acceptedRun.outcome = .returned none ∧
      acceptedRun.repeater.nextSequenceToken = "T2" ∧
      (firstPut afterAcceptedRun.calls).map (fun request => request.SequenceToken)
        = some (some "T2") :=
  ⟨by decide, by decide,
    WriteBatch_next_call_carries_token scripted marshalOk 0 acceptedRun.messageId holdingT1
      batch batch [.put (.ok ⟨some "T2"⟩)] [.put (.ok ⟨some "T3"⟩)] (by decide) (by decide)⟩

/-- C11 fails at concrete inputs: two consecutive calls that both return nil, where the
repeater holds the empty token after the first call and the first append of the second call
carries the token `T` that the priming lookup found. In the first pair the sink could not be
reached during the first call; in the second pair the sink answered the first call with an
empty next-token. -/
theorem next_call_carries_looked_up_token :
    (outageCall.outcome = .returned none ∧
      afterOutageCall.outcome = .returned none ∧
      outageCall.repeater.nextSequenceToken = "" ∧
      (firstPut afterOutageCall.calls).map (fun request => request.SequenceToken)
        = some (some "T")) ∧
    (emptyNextTokenCall.outcome = .returned none ∧
      afterEmptyNextTokenCall.outcome = .returned none ∧
      emptyNextTokenCall.repeater.nextSequenceToken = "" ∧
      (firstPut afterEmptyNextTokenCall.calls).map (fun request => request.SequenceToken)
        = some (some "T")) := by
  decide

/-! ## A lookup that lists no stream, or another stream -/

/-- C17 fails at a concrete input: the lookup of the priming lists no stream and `WriteBatch`
goes on to the append; that append reports `InvalidSequenceTokenException`, the lookup of the
recovery lists no stream, and `WriteBatch` returns an error at that point, without a
further append. -/
theorem recovery_lookup_no_stream_returns :
    noStreamTwiceRun.calls =
        [.DescribeLogStreams ⟨"group", "stream", 1⟩ (.ok ⟨[]⟩),
          .PutLogEvents ⟨batchEvents, "group", "stream", none⟩
            (.error (awsError "InvalidSequenceTokenException")),
          .DescribeLogStreams ⟨"group", "stream", 1⟩ (.ok ⟨[]⟩)] ∧
      noStreamTwiceRun.outcome =
        .returned (some (Errorf "Next token failed after InvalidSequenceTokenException : "
          (.errorString "failed to put events after looking for next sequence"))) := by
  decide

/-- C17, amended: when the priming of an empty token finds no stream listed, `WriteBatch`
proceeds to a `PutLogEvents` attempt that carries no token; when the lookup that recovers
from `InvalidSequenceTokenException` finds no stream listed, `WriteBatch` issues no further
call and returns an error. -/
theorem WriteBatch_lookup_no_stream {σ : Type} (conn : CloudWatchLogs σ)
    (marshal : Record → Except GoError String) (messageId : Int)
    (repeater : CloudWatchJournalRepeater) (records : List Record) (sink : σ)
    (events : List InputLogEvent)
    (hloop : (annotate marshal messageId records).events = .ok events) :
    (∀ s1 : σ, repeater.nextSequenceToken = "" →
        conn.DescribeLogStreams (describeRequest repeater) sink = (.ok ⟨[]⟩, s1) →
        [.DescribeLogStreams (describeRequest repeater) (.ok ⟨[]⟩),
          .PutLogEvents ⟨events, repeater.logGroupName, repeater.logStreamName, none⟩
            (conn.PutLogEvents (putRequest repeater events) s1).1] <+:
          (WriteBatch conn marshal messageId repeater records sink).calls) ∧
      (∀ (st1 : St σ) (text : String) (s2 s3 : σ),
        prime conn events ⟨repeater, sink, []⟩ = (.returned none, st1) →
        conn.PutLogEvents (putRequest st1.repeater events) st1.sink =
          (.error (.awserr "InvalidSequenceTokenException" text), s2) →
        conn.DescribeLogStreams (describeRequest st1.repeater) s2 = (.ok ⟨[]⟩, s3) →
        (WriteBatch conn marshal messageId repeater records sink).calls =
            st1.calls ++
              [.PutLogEvents (putRequest st1.repeater events)
                  (.error (.awserr "InvalidSequenceTokenException" text)),
                .DescribeLogStreams (describeRequest st1.repeater) (.ok ⟨[]⟩)] ∧
          (WriteBatch conn marshal messageId repeater records sink).outcome =
            .returned (some (Errorf "Next token failed after InvalidSequenceTokenException : "
              (.errorString "failed to put events after looking for next sequence")))) := by
  refine ⟨?_, ?_⟩
  · intro s1 htoken hlookup
    have hp := attempt_calls_prefix conn events
      ⟨repeater, s1, [.DescribeLogStreams (describeRequest repeater) (.ok ⟨[]⟩)]⟩
    have hc : (WriteBatch conn marshal messageId repeater records sink).calls =
        (attempt conn events
          ⟨repeater, s1, [.DescribeLogStreams (describeRequest repeater) (.ok ⟨[]⟩)]⟩).2.calls := by
      simp [WriteBatch, hloop, prime, htoken, getNextToken, hlookup]
    rw [hc]
    simpa [putRequest, htoken] using hp
  · intro st1 text s2 s3 hprime hput hlookup
    simp [WriteBatch, hloop, hprime, attempt, putEvents, hput, getNextToken, hlookup]

/-- C17, amended, at concrete inputs: a new stream (the priming lists nothing and the append
follows), and a stale token with no stream listed (an error is returned). -/
theorem WriteBatch_lookup_no_stream_witness :
    ([.DescribeLogStreams ⟨"group", "stream", 1⟩ (.ok ⟨[]⟩),
        .PutLogEvents ⟨batchEvents, "group", "stream", none⟩ (.ok ⟨some "T1"⟩)] <+:
        (WriteBatch scripted marshalOk 0 fresh batch newStream).calls) ∧
      noStreamTwiceRun.outcome =
        .returned (some (Errorf "Next token failed after InvalidSequenceTokenException : "
          (.errorString "failed to put events after looking for next sequence"))) :=
  ⟨(WriteBatch_lookup_no_stream scripted marshalOk 0 fresh batch newStream batchEvents rfl).1
      (newStream.drop 1) rfl rfl,
    ((WriteBatch_lookup_no_stream scripted marshalOk 0 fresh batch
      [.describe (.ok ⟨[]⟩), .put (.error (awsError "InvalidSequenceTokenException")),
        .describe (.ok ⟨[]⟩)] batchEvents rfl).2
      ⟨fresh, [.put (.error (awsError "InvalidSequenceTokenException")), .describe (.ok ⟨[]⟩)],
        [.DescribeLogStreams ⟨"group", "stream", 1⟩ (.ok ⟨[]⟩)]⟩
      "InvalidSequenceTokenException: rejected" [.describe (.ok ⟨[]⟩)] [] rfl rfl rfl).2⟩

/-- C19 fails at a concrete input: the repeater is bound to `stream`, the lookup lists only
`stream-2` with token `X`, and the repeater adopts `X`: both appends carry it and the
repeater holds it after the call. -/
theorem token_adopted_from_other_stream :
    otherStreamRun.calls =
        [.DescribeLogStreams ⟨"group", "stream", 1⟩ (.ok ⟨[⟨"stream-2", some "X"⟩]⟩),
          .PutLogEvents ⟨batchEvents, "group", "stream", some "X"⟩
            (.error (awsError "InvalidSequenceTokenException")),
          .PutLogEvents ⟨batchEvents, "group", "stream", some "X"⟩
            (.error (awsError "ThrottlingException"))] ∧
      otherStreamRun.repeater.nextSequenceToken = "X" := by
  decide

/-- C19, amended: the lookup asks for the streams whose name starts with the bound stream
name, at most one; when the answer lists a stream with an upload token `T`, the refresh
adopts `T` whatever the name of that stream: the append that follows is made for the bound
stream with token `T`, and afterwards the repeater holds `T` when that append is rejected
and its next-token when it is accepted. -/
theorem getNextToken_adopts_first_listed {σ : Type} (conn : CloudWatchLogs σ)
    (events : List InputLogEvent) (st : St σ) (stream : LogStream) (rest : List LogStream)
    (T : String) (s1 s2 : σ) (result : Except GoError PutLogEventsOutput)
    (hlookup : conn.DescribeLogStreams (describeRequest st.repeater) st.sink =
      (.ok ⟨stream :: rest⟩, s1))
    (htoken : stream.UploadSequenceToken = some T)
    (hput : conn.PutLogEvents
      (putRequest { st.repeater with nextSequenceToken := T } events) s1 = (result, s2)) :
    describeRequest st.repeater = ⟨st.repeater.logGroupName, st.repeater.logStreamName, 1⟩ ∧
      (getNextToken conn events st).2.calls =
        st.calls ++
          [.DescribeLogStreams (describeRequest st.repeater) (.ok ⟨stream :: rest⟩),
            .PutLogEvents (putRequest { st.repeater with nextSequenceToken := T } events)
              result] ∧
      (∀ err, result = .error err →
        (getNextToken conn events st).2.repeater = { st.repeater with nextSequenceToken := T }) ∧
      (∀ T1, result = .ok ⟨some T1⟩ →
        (getNextToken conn events st).2.repeater
          = { st.repeater with nextSequenceToken := T1 }) := by
  obtain ⟨name, tok⟩ := stream
  simp only at htoken
  subst htoken
  refine ⟨rfl, ?_⟩
  rcases result with e | ⟨_ | t⟩ <;>
    simp [getNextToken, hlookup, putEvents, hput]

/-- C19, amended, at a concrete input: bound to `stream`, the lookup lists `stream-2` with
token `X`, and the append that follows is rejected. -/
theorem getNextToken_adopts_first_listed_witness :
    (getNextToken scripted batchEvents ⟨fresh, otherStreamListed, []⟩).2.calls =
        [.DescribeLogStreams ⟨"group", "stream", 1⟩ (.ok ⟨[⟨"stream-2", some "X"⟩]⟩),
          .PutLogEvents ⟨batchEvents, "group", "stream", some "X"⟩
            (.error (awsError "InvalidSequenceTokenException"))] ∧
      (getNextToken scripted batchEvents ⟨fresh, otherStreamListed, []⟩).2.repeater
        = ⟨"group", "stream", "X"⟩ :=
  have h := getNextToken_adopts_first_listed scripted batchEvents ⟨fresh, otherStreamListed, []⟩
    ⟨"stream-2", some "X"⟩ [] "X" (otherStreamListed.drop 1) (otherStreamListed.drop 2)
    (.error (awsError "InvalidSequenceTokenException")) rfl rfl rfl
  ⟨h.2.1, h.2.2.1 _ rfl⟩

end CloudWatch
